import Mathlib

/-
Verification of the solr2es migration pipeline (src/solr2es/solr2es.py).

The embedding models the data the pipeline moves and the functions that
move it.  Solr documents are ordered mappings from field names to values
that are either scalars or sequences of scalars (spec data model).  The
external collaborators (Solr search, the Elasticsearch client, Redis) are
modelled as explicit inputs: a search function from a cursor string to a
result, a bulk-response oracle indexed by call number, and a key-to-list
store.  Calls that can raise in Python are modelled with Except or Option.
-/

/-- A scalar Solr field value: a JSON string or integer. -/
inductive JScalar where
  | str : String → JScalar
  | num : Int → JScalar
deriving DecidableEq, Repr

/-- A Solr field value: a scalar or a sequence of scalars (multi-valued
field).  This is the value shape the spec data model assigns to documents. -/
inductive JValue where
  | scalar : JScalar → JValue
  | arr : List JScalar → JValue
deriving DecidableEq, Repr

/-- A document: an ordered mapping from field name to value, as produced by
the Solr client (python dicts preserve insertion order). -/
abbrev Doc := List (String × JValue)

/-- Escaping used by json.dumps on the characters our model admits inside
strings: backslash, double quote and newline. -/
def jescape (s : String) : String :=
  String.join (s.data.map (fun c =>
    if c = '\\' then "\\\\"
    else if c = '"' then "\\\""
    else if c = '\n' then "\\n"
    else String.singleton c))

/-- json.dumps of a scalar. -/
def dumpsScalar : JScalar → String
  | .str s => "\"" ++ jescape s ++ "\""
  | .num n => toString n

/-- json.dumps of a field value (default separators of json.dumps). -/
def dumpsV : JValue → String
  | .scalar s => dumpsScalar s
  | .arr l => "[" ++ ", ".intercalate (l.map dumpsScalar) ++ "]"

/-- json.dumps of a document dict (default separators of json.dumps). -/
def dumpsDoc (d : Doc) : String :=
  "\x7b" ++
    ", ".intercalate (d.map (fun p => "\"" ++ jescape p.1 ++ "\": " ++ dumpsV p.2)) ++
    "\x7d"

/-- DEFAULT_ES_DOC_TYPE from solr2es.py. -/
def DEFAULT_ES_DOC_TYPE : String := "doc"

/-- Python dict lookup row[k]: some value when the key is present, none when
the lookup would raise KeyError. -/
def dictGet (row : Doc) (k : String) : Option JValue :=
  (row.find? (fun p => p.1 == k)).map Prod.snd

/-- The local function named filter inside remove_arrays: a list value is
replaced by value[0], everything else is returned unchanged.  none models
the IndexError raised by value[0] on an empty list. -/
def remove_arrays_filter : JValue → Option JValue
  | .arr l => l.head?.map JValue.scalar
  | v => some v

/-- remove_arrays from solr2es.py: rebuild the document applying the filter
to every field value.  none models a raised IndexError. -/
def remove_arrays : Doc → Option Doc
  | [] => some []
  | (k, v) :: rest =>
    match remove_arrays_filter v, remove_arrays rest with
    | some v2, some rest2 => some ((k, v2) :: rest2)
    | _, _ => none

/-- json.dumps of the bulk write directive built by create_es_actions for
one row: the dict with key index mapping to the dict with keys _index,
_type and _id, where _id holds row id verbatim. -/
def es_directive_line (index_name : String) (idv : JValue) : String :=
  "\x7b\"index\": \x7b\"_index\": \"" ++ jescape index_name ++
    "\", \"_type\": \"" ++ jescape DEFAULT_ES_DOC_TYPE ++
    "\", \"_id\": " ++ dumpsV idv ++ "\x7d\x7d"

/-- The flattened list of serialized lines create_es_actions builds: for
each row, the dumped directive followed by the dumped remove_arrays body.
none models a KeyError on a missing id field or an IndexError from
remove_arrays. -/
def es_actions_list (index_name : String) : List Doc → Option (List String)
  | [] => some []
  | row :: rest =>
    match dictGet row "id", remove_arrays row with
    | some idv, some body =>
      match es_actions_list index_name rest with
      | some tail => some (es_directive_line index_name idv :: dumpsDoc body :: tail)
      | none => none
    | _, _ => none

/-- create_es_actions from solr2es.py: the newline join of the interleaved
directive and body lines, two lines per document, in input order. -/
def create_es_actions (index_name : String) (solr_results : List Doc) : Option String :=
  (es_actions_list index_name solr_results).map (fun lines => "\n".intercalate lines)

/-- One Solr search result, as consumed by both pipelines: the documents of
the page, the next cursor mark, and the total hit count. -/
structure SolrResult where
  docs : List Doc
  nextCursorMark : String
  hits : Nat
deriving DecidableEq, Repr

/-- Everything observable about one run of produce_results: the yielded
pages in order, the number of search requests issued, the progress log
events in order (each carries nb_results and nb_total at the moment of the
log call), and the final value of nb_results. -/
structure ProduceOut where
  pages : List (List Doc)
  requests : Nat
  progress : List (Nat × Nat)
  finalCount : Nat
deriving DecidableEq, Repr

/-- The while loop of Solr2Es.produce_results.  The Solr collaborator is a
function from the sent cursorMark to an Except: error models a raised
transport or query exception.  The loop carries nb_results and nb_total;
fuel bounds the number of iterations, and an exhausted fuel returns ok none
(the model artifact for a run that did not terminate within the bound). -/
def produce_results_loop (search : String → Except String SolrResult) :
    Nat → String → Nat → Nat → Except String (Option ProduceOut)
  | 0, _, _, _ => .ok none
  | fuel + 1, cursorMark, nb_results, nb_total =>
    match search cursorMark with
    | .error e => .error e
    | .ok results =>
      let total := if cursorMark = "*" then results.hits else nb_total
      if cursorMark ≠ results.nextCursorMark then
        let nb := nb_results + results.docs.length
        match produce_results_loop search fuel results.nextCursorMark nb total with
        | .error e => .error e
        | .ok none => .ok none
        | .ok (some out) =>
          .ok (some { pages := results.docs :: out.pages,
                      requests := out.requests + 1,
                      progress := (if nb % 10000 == 0 then [(nb, total)] else []) ++ out.progress,
                      finalCount := out.finalCount })
      else .ok (some { pages := [], requests := 1, progress := [], finalCount := nb_results })

/-- Solr2Es.produce_results: start the loop at the sentinel cursor with
both counters at zero. -/
def produce_results (search : String → Except String SolrResult) (fuel : Nat) :
    Except String (Option ProduceOut) :=
  produce_results_loop search fuel "*" 0 0

/-- One entry of the items list of an Elasticsearch bulk response: whether
the item failed, and the payload (id, status, reason) that the warning log
would print. -/
structure BulkItem where
  failed : Bool
  info : String
deriving DecidableEq, Repr

/-- An Elasticsearch bulk response: the batch level errors flag and the per
item entries. -/
structure BulkResponse where
  errors : Bool
  items : List BulkItem
deriving DecidableEq, Repr

/-- The Elasticsearch collaborator of the blocking pipeline: whether the
target index already exists, the outcome of indices.create, and the bulk
response to the n-th bulk call (error models a raised transport failure). -/
structure EsState where
  indexExists : Bool
  createResult : Except String Unit
  bulk : Nat → Except String BulkResponse

/-- The outcome of the page loop of Solr2Es.migrate: the final nb_results
and every bulk response item passed to LOGGER.warning, in order. -/
structure MigrateOut where
  count : Int
  warned : List BulkItem
deriving DecidableEq, Repr

/-- The body of the for loop of Solr2Es.migrate, folded over the yielded
pages: build the actions (KeyError and IndexError propagate as errors),
issue the bulk call, add the page length to nb_results, and when the
response errors flag is set warn on every item of the response and
subtract the length of the whole items list. -/
def migrate_pages (ebulk : Nat → Except String BulkResponse) (index_name : String) :
    List (List Doc) → Nat → Int → List BulkItem → Except String MigrateOut
  | [], _, nb, w => .ok ⟨nb, w⟩
  | results :: rest, i, nb, w =>
    match create_es_actions index_name results with
    | none => .error "KeyError or IndexError in create_es_actions"
    | some _ =>
      match ebulk i with
      | .error e => .error e
      | .ok response =>
        let nb1 := nb + (results.length : Int)
        if response.errors then
          migrate_pages ebulk index_name rest (i + 1)
            (nb1 - (response.items.length : Int)) (w ++ response.items)
        else
          migrate_pages ebulk index_name rest (i + 1) nb1 w

/-- Solr2Es.migrate: create the index when absent (a create failure
propagates), run produce_results, and fold the page loop over the yielded
pages.  ok none is the fuel artifact of a non-terminating cursor stream. -/
def Solr2Es_migrate (es : EsState) (search : String → Except String SolrResult)
    (index_name : String) (fuel : Nat) : Except String (Option MigrateOut) :=
  match (if es.indexExists then Except.ok () else es.createResult) with
  | .error e => .error e
  | .ok _ =>
    match produce_results search fuel with
    | .error e => .error e
    | .ok none => .ok none
    | .ok (some out) =>
      match migrate_pages es.bulk index_name out.pages 0 0 [] with
      | .error e => .error e
      | .ok m => .ok (some m)

/-- The while loop of Solr2EsAsync.produce_results.  The async client
returns the parsed JSON with the same three components (docs, next cursor
mark, numFound); the loop body is line for line the one of the blocking
produce_results. -/
def aioproduce_results_loop (search : String → Except String SolrResult) :
    Nat → String → Nat → Nat → Except String (Option ProduceOut)
  | 0, _, _, _ => .ok none
  | fuel + 1, cursorMark, nb_results, nb_total =>
    match search cursorMark with
    | .error e => .error e
    | .ok results =>
      let total := if cursorMark = "*" then results.hits else nb_total
      if cursorMark ≠ results.nextCursorMark then
        let nb := nb_results + results.docs.length
        match aioproduce_results_loop search fuel results.nextCursorMark nb total with
        | .error e => .error e
        | .ok none => .ok none
        | .ok (some out) =>
          .ok (some { pages := results.docs :: out.pages,
                      requests := out.requests + 1,
                      progress := (if nb % 10000 == 0 then [(nb, total)] else []) ++ out.progress,
                      finalCount := out.finalCount })
      else .ok (some { pages := [], requests := 1, progress := [], finalCount := nb_results })

/-- Solr2EsAsync.produce_results. -/
def aioproduce_results (search : String → Except String SolrResult) (fuel : Nat) :
    Except String (Option ProduceOut) :=
  aioproduce_results_loop search fuel "*" 0 0

/-- The body of the async for loop of Solr2EsAsync.migrate: build the
actions, await the bulk call, and add the page length to nb_results.  The
bulk response value is discarded: there is no errors check, no warning and
no subtraction. -/
def aiomigrate_pages (ebulk : Nat → Except String BulkResponse) (index_name : String) :
    List (List Doc) → Nat → Int → Except String Int
  | [], _, nb => .ok nb
  | results :: rest, i, nb =>
    match create_es_actions index_name results with
    | none => .error "KeyError or IndexError in create_es_actions"
    | some _ =>
      match ebulk i with
      | .error e => .error e
      | .ok _ => aiomigrate_pages ebulk index_name rest (i + 1) (nb + (results.length : Int))

/-- Solr2EsAsync.migrate: no index existence check and no index creation;
fold the async page loop over the pages of the async produce_results. -/
def Solr2EsAsync_migrate (ebulk : Nat → Except String BulkResponse)
    (search : String → Except String SolrResult) (index_name : String) (fuel : Nat) :
    Except String (Option Int) :=
  match aioproduce_results search fuel with
  | .error e => .error e
  | .ok none => .ok none
  | .ok (some out) =>
    match aiomigrate_pages ebulk index_name out.pages 0 0 with
    | .error e => .error e
    | .ok nb => .ok (some nb)

/-- redis lpush key v1 ... vn: each value is inserted in turn at the head
of the list stored at the key; every other key is untouched. -/
def redis_lpush (store : String → List String) (key : String) (values : List String) :
    String → List String :=
  fun k => if k = key then values.foldl (fun q v => v :: q) (store key) else store k

/-- RedisConsumer.consume: for every page of the producer, lpush the
json.dumps of each document of the page onto the list at the fixed key
solr2es:queue. -/
def RedisConsumer_consume (store : String → List String) (pages : List (List Doc)) :
    String → List String :=
  pages.foldl (fun st results => redis_lpush st "solr2es:queue" (results.map dumpsDoc)) store

/-- RedisConsumerAsync.consume: the asyncio variant pushes the same
per-document serializations under the same fixed key. -/
def RedisConsumerAsync_consume (store : String → List String) (pages : List (List Doc)) :
    String → List String :=
  pages.foldl (fun st results => redis_lpush st "solr2es:queue" (results.map dumpsDoc)) store

/-- resume_from_redis: the function body is a single LOGGER.info call and
an implicit return None.  The model returns the log lines it emits and the
returned value; it touches no queue and no Elasticsearch client. -/
def resume_from_redis (redishost esurl name : String) : List String × Option Nat :=
  (["resume from redis (host=" ++ redishost ++ ") to elasticsearch (" ++ esurl ++
      ") index " ++ name], none)

/-- aioresume_from_redis: same single log call and implicit return None. -/
def aioresume_from_redis (redishost esurl name : String) : List String × Option Nat :=
  (["asyncio resume from redis (host=" ++ redishost ++ ") to elasticsearch (" ++ esurl ++
      ") index " ++ name], none)

/-- Wrap a total Solr collaborator as an Except valued one that never
raises. -/
def okSearch (f : String → SolrResult) : String → Except String SolrResult :=
  fun c => .ok (f c)

/-- The cursor trajectory of a run: the cursor sent with the n-th request
when the first request sends c. -/
def trajFrom (f : String → SolrResult) (c : String) : Nat → String
  | 0 => c
  | n + 1 => (f (trajFrom f c n)).nextCursorMark

/-- The first n pages the source serves along the trajectory from c. -/
def pagesFrom (f : String → SolrResult) (c : String) : Nat → List (List Doc)
  | 0 => []
  | n + 1 => (f c).docs :: pagesFrom f ((f c).nextCursorMark) n

/-- The total number of documents on the first n pages along the
trajectory from c. -/
def cumFrom (f : String → SolrResult) (c : String) : Nat → Nat
  | 0 => 0
  | n + 1 => (f c).docs.length + cumFrom f ((f c).nextCursorMark) n

/-- Whether a value is a python list in the sense of the type check inside
remove_arrays. -/
def isList : JValue → Bool
  | .arr _ => true
  | _ => false

/-- The relation between a value of a document whose array fields are
length-1 lists and the corresponding value of the already-scalar
equivalent document: either the values are equal, or the first is the
one-element list holding the second (a scalar). -/
def scalarEquiv (v1 v2 : JValue) : Bool :=
  v1 == v2 ||
    (match v2 with
     | .scalar s => v1 == JValue.arr [s]
     | .arr _ => false)


/-- A synthetic two page source: one document on the first page, an empty
second page, then the cursor repeats. -/
def srcTwoPages : String → SolrResult := fun c =>
  if c = "*" then ⟨[[("id", JValue.scalar (.str "1"))]], "a", 2⟩
  else if c = "a" then ⟨[], "b", 2⟩
  else ⟨[], "b", 2⟩

/-- A synthetic source whose cumulative count crosses 10000 strictly
between multiples: a 9999 document page followed by a 4 document page. -/
def srcCross : String → SolrResult := fun c =>
  if c = "*" then ⟨List.replicate 9999 [], "a", 10003⟩
  else if c = "a" then ⟨List.replicate 4 [], "b", 10003⟩
  else ⟨[], "b", 10003⟩

/-- The spec example document with id 7 and a two element tags array. -/
def docSeven : Doc :=
  [("id", JValue.scalar (.str "7")), ("tags", JValue.arr [.str "a", .str "b"])]

/-- A bulk response oracle that always reports one failed item with the
batch errors flag set. -/
def ebulkOneFailed : Nat → Except String BulkResponse :=
  fun _ => .ok ⟨true, [⟨true, "item 1 failed"⟩]⟩

/-- The items list of a ten document bulk response with two failures. -/
def itemsTen : List BulkItem :=
  List.replicate 2 ⟨true, "failed"⟩ ++ List.replicate 8 ⟨false, "ok"⟩

/-- An Elasticsearch state whose index exists and whose bulk responses set
the errors flag and list all ten items, two of them failed. -/
def esTen : EsState := ⟨true, .ok (), fun _ => .ok ⟨true, itemsTen⟩⟩

/-- A page of ten documents. -/
def docsTen : List Doc := List.replicate 10 [("id", JValue.scalar (.str "1"))]

/-- A synthetic source serving the ten document page and then repeating the
cursor. -/
def srcOnePageTen : String → SolrResult := fun c =>
  if c = "*" then ⟨docsTen, "a", 10⟩ else ⟨[], "a", 10⟩

/-- An Elasticsearch state with an existing index and clean bulk
responses. -/
def esOk : EsState := ⟨true, .ok (), fun _ => .ok ⟨false, []⟩⟩

/-- An Elasticsearch state with an existing index whose bulk responses set
the errors flag with a single failed item. -/
def esErr : EsState := ⟨true, .ok (), fun _ => .ok ⟨true, [⟨true, "failed"⟩]⟩⟩

/-- A synthetic source with a single one document page. -/
def srcOnePage : String → SolrResult := fun c =>
  if c = "*" then ⟨[[("id", JValue.scalar (.str "1"))]], "a", 1⟩ else ⟨[], "a", 1⟩

/-- An empty key to list store. -/
def storeEmpty : String → List String := fun _ => []

lemma trajFrom_shift (f : String → SolrResult) (c : String) :
    ∀ n, trajFrom f c (n + 1) = trajFrom f ((f c).nextCursorMark) n := by
  intro n
  induction n with
  | zero => rfl
  | succ n ihn =>
    rw [show trajFrom f c (n + 1 + 1) = (f (trajFrom f c (n + 1))).nextCursorMark from rfl, ihn]
    rfl

lemma produce_loop_spec (f : String → SolrResult) :
    ∀ (K : Nat) (c : String) (nb tot fuel : Nat), K + 1 ≤ fuel →
    (∀ i, i < K → trajFrom f c i ≠ trajFrom f c (i + 1)) →
    trajFrom f c K = trajFrom f c (K + 1) →
    ∃ out, produce_results_loop (okSearch f) fuel c nb tot = Except.ok (some out) ∧
      out.pages = pagesFrom f c K ∧
      out.requests = K + 1 ∧
      out.progress.map Prod.fst =
        ((List.range K).map (fun i => nb + cumFrom f c (i + 1))).filter
          (fun n => n % 10000 == 0) ∧
      out.finalCount = nb + cumFrom f c K := by
  intro K
  induction K with
  | zero =>
    intro c nb tot fuel hfuel hdist hfix
    obtain ⟨m, rfl⟩ : ∃ m, fuel = m + 1 := ⟨fuel - 1, by omega⟩
    have hc : c = (f c).nextCursorMark := by simpa [trajFrom] using hfix
    refine ⟨⟨[], 1, [], nb⟩, ?_, rfl, rfl, by simp, by simp [cumFrom]⟩
    simp only [produce_results_loop, okSearch]
    rw [if_neg (fun h => h hc)]
  | succ K ih =>
    intro c nb tot fuel hfuel hdist hfix
    obtain ⟨m, rfl⟩ : ∃ m, fuel = m + 1 := ⟨fuel - 1, by omega⟩
    have h0 : c ≠ (f c).nextCursorMark := by
      simpa [trajFrom] using hdist 0 (Nat.succ_pos K)
    have hdist2 : ∀ i, i < K →
        trajFrom f ((f c).nextCursorMark) i ≠ trajFrom f ((f c).nextCursorMark) (i + 1) := by
      intro i hi
      have := hdist (i + 1) (by omega)
      rwa [trajFrom_shift, trajFrom_shift] at this
    have hfix2 : trajFrom f ((f c).nextCursorMark) K =
        trajFrom f ((f c).nextCursorMark) (K + 1) := by
      have := hfix
      rwa [trajFrom_shift, trajFrom_shift] at this
    obtain ⟨out1, hrun, hp, hr, hprog, hfin⟩ :=
      ih ((f c).nextCursorMark) (nb + (f c).docs.length)
        (if c = "*" then (f c).hits else tot) m (by omega) hdist2 hfix2
    refine ⟨⟨(f c).docs :: out1.pages, out1.requests + 1,
        (if (nb + (f c).docs.length) % 10000 == 0
          then [((nb + (f c).docs.length), if c = "*" then (f c).hits else tot)] else []) ++
          out1.progress,
        out1.finalCount⟩, ?_, ?_, ?_, ?_, ?_⟩
    · simp only [produce_results_loop, okSearch]
      rw [if_pos h0, hrun]
    · simp [pagesFrom, hp]
    · simp [hr]
    · have hcum1 : ∀ i : Nat, nb + cumFrom f c (i + 1 + 1) =
          nb + (f c).docs.length + cumFrom f ((f c).nextCursorMark) (i + 1) := by
        intro i
        simp only [cumFrom]
        omega
      simp only [List.map_append, List.filter_append, List.map_cons]
      rw [List.range_succ_eq_map, List.map_cons, List.filter_cons, List.map_map]
      have hmap : ((List.range K).map ((fun i => nb + cumFrom f c (i + 1)) ∘ Nat.succ)) =
          (List.range K).map (fun i => nb + (f c).docs.length +
            cumFrom f ((f c).nextCursorMark) (i + 1)) := by
        refine List.map_congr_left ?_
        intro i _
        simpa using hcum1 i
      rw [hmap, ← hprog]
      have hhead : nb + cumFrom f c (0 + 1) = nb + (f c).docs.length := by
        simp [cumFrom]
      rw [hhead]
      by_cases hb : (nb + (f c).docs.length) % 10000 == 0
      · simp [hb]
      · simp [hb]
    · rw [hfin]
      simp only [cumFrom]
      omega

lemma aioproduce_loop_eq (search : String → Except String SolrResult) :
    ∀ fuel c nb tot, aioproduce_results_loop search fuel c nb tot =
      produce_results_loop search fuel c nb tot := by
  intro fuel
  induction fuel with
  | zero => intro c nb tot; rfl
  | succ n ihn =>
    intro c nb tot
    simp only [aioproduce_results_loop, produce_results_loop, ihn]

lemma aioproduce_eq (search : String → Except String SolrResult) (fuel : Nat) :
    aioproduce_results search fuel = produce_results search fuel := by
  simp [aioproduce_results, produce_results, aioproduce_loop_eq]

lemma migrate_pages_bulk_ok (ebulk : Nat → Except String BulkResponse) (idx : String) :
    ∀ (pages : List (List Doc)) (i : Nat) (nb : Int) (w : List BulkItem) (m : MigrateOut),
      migrate_pages ebulk idx pages i nb w = .ok m →
      ∀ j, j < pages.length → ∃ r, ebulk (i + j) = .ok r := by
  intro pages
  induction pages with
  | nil =>
    intro i nb w m _ j hj
    simp at hj
  | cons p rest ih =>
    intro i nb w m hrun j hj
    cases hca : create_es_actions idx p with
    | none => simp [migrate_pages, hca] at hrun
    | some a =>
      cases hb : ebulk i with
      | error e => simp [migrate_pages, hca, hb] at hrun
      | ok r =>
        cases j with
        | zero => exact ⟨r, by simpa using hb⟩
        | succ j =>
          simp only [migrate_pages, hca, hb] at hrun
          have hj2 : j < rest.length := by simpa using hj
          have := by
            cases her : r.errors with
            | true =>
              rw [her] at hrun
              simp only [if_pos rfl] at hrun
              exact ih (i + 1) _ _ m hrun j hj2
            | false =>
              rw [her] at hrun
              rw [if_neg (by decide)] at hrun
              exact ih (i + 1) _ _ m hrun j hj2
          obtain ⟨r2, hr2⟩ := this
          exact ⟨r2, by rwa [show i + (j + 1) = i + 1 + j by omega]⟩

lemma migrate_pages_no_errors (ebulk : Nat → Except String BulkResponse) (idx : String)
    (hok : ∀ i r, ebulk i = .ok r → r.errors = false) :
    ∀ (pages : List (List Doc)) (i : Nat) (nb : Int) (w : List BulkItem),
      (migrate_pages ebulk idx pages i nb w).map MigrateOut.count =
        aiomigrate_pages ebulk idx pages i nb := by
  intro pages
  induction pages with
  | nil => intro i nb w; rfl
  | cons p rest ih =>
    intro i nb w
    cases hca : create_es_actions idx p with
    | none => simp [migrate_pages, aiomigrate_pages, hca, Except.map]
    | some a =>
      cases hb : ebulk i with
      | error e => simp [migrate_pages, aiomigrate_pages, hca, hb, Except.map]
      | ok r =>
        have her : r.errors = false := hok i r hb
        simp only [migrate_pages, aiomigrate_pages, hca, hb, her]
        rw [if_neg (by decide)]
        exact ih (i + 1) (nb + (p.length : Int)) w

lemma remove_arrays_empty_list (row : Doc) (k : String)
    (h : (k, JValue.arr []) ∈ row) : remove_arrays row = none := by
  induction row with
  | nil => simp at h
  | cons p rest ih =>
    rcases List.mem_cons.mp h with hhead | htail
    · obtain ⟨k2, v2⟩ := p
      obtain ⟨hk, hv⟩ := Prod.mk.injEq .. ▸ hhead.symm
      subst hv
      simp [remove_arrays, remove_arrays_filter]
    · obtain ⟨k2, v2⟩ := p
      rw [remove_arrays, ih htail]
      cases remove_arrays_filter v2 <;> rfl

lemma es_actions_list_none (idx : String) :
    ∀ (docs : List Doc) (row : Doc), row ∈ docs → remove_arrays row = none →
      es_actions_list idx docs = none := by
  intro docs
  induction docs with
  | nil => intro row h; simp at h
  | cons d rest ih =>
    intro row hmem hnone
    rcases List.mem_cons.mp hmem with hhead | htail
    · subst hhead
      rw [es_actions_list, hnone]
      cases dictGet row "id" <;> rfl
    · rw [es_actions_list, ih row htail hnone]
      cases dictGet d "id" with
      | none => rfl
      | some idv => cases remove_arrays d <;> rfl

lemma foldl_cons_eq_reverse_append (l acc : List String) :
    l.foldl (fun q v => v :: q) acc = l.reverse ++ acc := by
  induction l generalizing acc with
  | nil => rfl
  | cons a t ih => simp [List.foldl_cons, ih]

lemma consume_other_key (store : String → List String) (pages : List (List Doc))
    (k : String) (hk : k ≠ "solr2es:queue") :
    RedisConsumer_consume store pages k = store k := by
  induction pages generalizing store with
  | nil => rfl
  | cons p rest ih =>
    rw [RedisConsumer_consume, List.foldl_cons]
    rw [show (List.foldl (fun st results => redis_lpush st "solr2es:queue"
      (results.map dumpsDoc)) (redis_lpush store "solr2es:queue" (p.map dumpsDoc)) rest)
      = RedisConsumer_consume (redis_lpush store "solr2es:queue" (p.map dumpsDoc)) rest
      from rfl]
    rw [ih]
    simp [redis_lpush, hk]

lemma consume_queue_eq (store : String → List String) (pages : List (List Doc)) :
    RedisConsumer_consume store pages "solr2es:queue" =
      ((pages.map (fun r => (r.map dumpsDoc).reverse)).reverse).flatten ++
        store "solr2es:queue" := by
  induction pages generalizing store with
  | nil => simp [RedisConsumer_consume]
  | cons p rest ih =>
    rw [RedisConsumer_consume, List.foldl_cons]
    rw [show (List.foldl (fun st results => redis_lpush st "solr2es:queue"
      (results.map dumpsDoc)) (redis_lpush store "solr2es:queue" (p.map dumpsDoc)) rest)
      = RedisConsumer_consume (redis_lpush store "solr2es:queue" (p.map dumpsDoc)) rest
      from rfl]
    rw [ih]
    simp [redis_lpush, foldl_cons_eq_reverse_append]

lemma filter_scalarEquiv (v1 v2 : JValue) (h : scalarEquiv v1 v2 = true) :
    remove_arrays_filter v1 = remove_arrays_filter v2 := by
  unfold scalarEquiv at h
  simp only [Bool.or_eq_true] at h
  rcases h with h1 | h1
  · rw [eq_of_beq h1]
  · cases v2 with
    | arr l => exact absurd h1 (by simp)
    | scalar s =>
      have hv : v1 = JValue.arr [s] := eq_of_beq h1
      subst hv
      rfl

lemma remove_arrays_scalarEquiv (d1 d2 : Doc)
    (h : List.Forall₂ (fun p q => p.1 = q.1 ∧ scalarEquiv p.2 q.2 = true) d1 d2) :
    remove_arrays d1 = remove_arrays d2 := by
  induction h with
  | nil => rfl
  | @cons a b l1 l2 hab htail ih =>
    obtain ⟨ka, va⟩ := a
    obtain ⟨kb, vb⟩ := b
    have hk : ka = kb := hab.1
    have hv : scalarEquiv va vb = true := hab.2
    rw [remove_arrays, remove_arrays, hk, filter_scalarEquiv va vb hv, ih]

lemma es_actions_list_flat (idx : String) :
    ∀ docs : List Doc,
      (∀ d ∈ docs, (dictGet d "id").isSome ∧ (remove_arrays d).isSome) →
      es_actions_list idx docs = some (docs.flatMap (fun d =>
        [es_directive_line idx ((dictGet d "id").getD (JValue.scalar (.str ""))),
         dumpsDoc ((remove_arrays d).getD [])])) := by
  intro docs
  induction docs with
  | nil => intro _; rfl
  | cons d rest ih =>
    intro h
    obtain ⟨hid, hra⟩ := h d (List.mem_cons_self ..)
    obtain ⟨idv, hidv⟩ := Option.isSome_iff_exists.mp hid
    obtain ⟨body, hbody⟩ := Option.isSome_iff_exists.mp hra
    have ihr := ih (fun d2 hd2 => h d2 (List.mem_cons_of_mem _ hd2))
    simp only [es_actions_list, hidv, hbody, ihr, List.flatMap_cons]
    simp [hidv, hbody]

lemma cumFrom_zero (f : String → SolrResult) (c : String) : cumFrom f c 0 = 0 := rfl

lemma cumFrom_succ (f : String → SolrResult) (c : String) (n : Nat) :
    cumFrom f c (n + 1) = (f c).docs.length + cumFrom f ((f c).nextCursorMark) n := rfl

lemma pagesFrom_zero (f : String → SolrResult) (c : String) : pagesFrom f c 0 = [] := rfl

lemma pagesFrom_succ (f : String → SolrResult) (c : String) (n : Nat) :
    pagesFrom f c (n + 1) = (f c).docs :: pagesFrom f ((f c).nextCursorMark) n := rfl

/-- Claim C2: for every source whose cursor trajectory first repeats at
step K (distinct before, equal at K), produce_results terminates within
K + 1 requests; it yields exactly the K pages of the trajectory with no
condition on their emptiness, and the terminating request is the one whose
returned cursor equals the cursor just sent. -/
theorem solr2es_c2_fixed_point_termination (f : String → SolrResult) (K fuel : Nat)
    (hfuel : K + 1 ≤ fuel)
    (hdist : ∀ i, i < K → trajFrom f "*" i ≠ trajFrom f "*" (i + 1))
    (hfix : trajFrom f "*" K = trajFrom f "*" (K + 1)) :
    ∃ out, produce_results (okSearch f) fuel = Except.ok (some out) ∧
      out.requests = K + 1 ∧
      out.pages = pagesFrom f "*" K ∧
      (f (trajFrom f "*" K)).nextCursorMark = trajFrom f "*" K := by
  obtain ⟨out, h1, h2, h3, _, _⟩ := produce_loop_spec f K "*" 0 0 fuel hfuel hdist hfix
  exact ⟨out, h1, h3, h2, hfix.symm⟩

/-- Witness for C2 on the two page synthetic source (its second page is
empty and is still yielded, not treated as a termination signal): three
requests, two pages. -/
theorem solr2es_c2_witness :
    ∃ out, produce_results (okSearch srcTwoPages) 3 = Except.ok (some out) ∧
      out.requests = 2 + 1 ∧
      out.pages = pagesFrom srcTwoPages "*" 2 ∧
      (srcTwoPages (trajFrom srcTwoPages "*" 2)).nextCursorMark =
        trajFrom srcTwoPages "*" 2 :=
  solr2es_c2_fixed_point_termination srcTwoPages 2 3 (by decide) (by decide) (by decide)

/-- Claim C6 (amended): a progress notification fires after exactly those
pages whose cumulative read count is an exact multiple of 10000; a run
whose count crosses 10000 strictly between multiples emits no
notification, so firing depends on how the documents split across
pages. -/
theorem solr2es_c6_progress_on_exact_multiples (f : String → SolrResult) (K fuel : Nat)
    (hfuel : K + 1 ≤ fuel)
    (hdist : ∀ i, i < K → trajFrom f "*" i ≠ trajFrom f "*" (i + 1))
    (hfix : trajFrom f "*" K = trajFrom f "*" (K + 1)) :
    ∃ out, produce_results (okSearch f) fuel = Except.ok (some out) ∧
      out.progress.map Prod.fst =
        ((List.range K).map (fun i => cumFrom f "*" (i + 1))).filter
          (fun n => n % 10000 == 0) := by
  obtain ⟨out, h1, _, _, h4, _⟩ := produce_loop_spec f K "*" 0 0 fuel hfuel hdist hfix
  refine ⟨out, h1, ?_⟩
  rw [h4]
  simp only [Nat.zero_add]

/-- Witness for the amended C6 on the two page synthetic source. -/
theorem solr2es_c6_witness :
    ∃ out, produce_results (okSearch srcTwoPages) 3 = Except.ok (some out) ∧
      out.progress.map Prod.fst =
        ((List.range 2).map (fun i => cumFrom srcTwoPages "*" (i + 1))).filter
          (fun n => n % 10000 == 0) :=
  solr2es_c6_progress_on_exact_multiples srcTwoPages 2 3 (by decide) (by decide) (by decide)

/-- Counterexample for C6 as stated: a run of 9999 then 4 documents
crosses the 10000 threshold but fires no progress notification, because
the cumulative count never lands on an exact multiple of 10000. -/
theorem solr2es_c6_counterexample :
    ∃ out, produce_results (okSearch srcCross) 3 = Except.ok (some out) ∧
      out.progress = [] ∧
      out.finalCount = 10003 ∧
      out.pages.map List.length = [9999, 4] ∧
      9999 < 10000 ∧ 10000 ≤ 10003 := by
  obtain ⟨out, h1, hpages, hreq, hprog, hfin⟩ :=
    produce_loop_spec srcCross 2 "*" 0 0 3 (by omega) (by decide) (by decide)
  have hrange : List.range 2 = [0, 1] := by decide
  have e1 : srcCross "*" = ⟨List.replicate 9999 [], "a", 10003⟩ := rfl
  have e2 : srcCross ((⟨List.replicate 9999 [], "a", 10003⟩ : SolrResult).nextCursorMark) =
      ⟨List.replicate 4 [], "b", 10003⟩ := rfl
  have hc1 : cumFrom srcCross "*" 1 = 9999 := by
    rw [cumFrom_succ, e1, cumFrom_zero, List.length_replicate]
  have hc2 : cumFrom srcCross "*" (1 + 1) = 10003 := by
    rw [cumFrom_succ, e1, cumFrom_succ, e2, cumFrom_zero,
      List.length_replicate, List.length_replicate]
  have hc2b : cumFrom srcCross "*" 2 = 10003 := by
    rw [show (2 : Nat) = 1 + 1 from rfl]
    exact hc2
  have hmap : out.progress.map Prod.fst = [] := by
    rw [hprog, hrange]
    simp only [List.map_cons, List.map_nil, Nat.zero_add]
    rw [hc1, hc2]
    decide
  have hnil : out.progress = [] := by
    cases hq : out.progress with
    | nil => rfl
    | cons a t => rw [hq] at hmap; simp at hmap
  refine ⟨out, h1, hnil, ?_, ?_, by norm_num, by norm_num⟩
  · rw [hfin, hc2b]
  · rw [hpages]
    rw [show (2 : Nat) = 1 + 1 from rfl, pagesFrom_succ, e1, pagesFrom_succ, e2,
      pagesFrom_zero]
    simp only [List.map_cons, List.map_nil]
    rw [List.length_replicate, List.length_replicate]

/-- Claim C1 (amended): on a page write whose response sets the errors
flag, Solr2Es.migrate increments the tally by the page size and then
subtracts the length of the whole items list of the response, failed and
successful entries alike, and logs a warning for every item of the
response, not only the failed ones. -/
theorem solr2es_c1_partial_failure_accounting
    (ebulk : Nat → Except String BulkResponse) (idx : String) (docs : List Doc)
    (i : Nat) (nb : Int) (w : List BulkItem) (r : BulkResponse)
    (h1 : (create_es_actions idx docs).isSome)
    (h2 : ebulk i = .ok r) (h3 : r.errors = true) :
    migrate_pages ebulk idx [docs] i nb w =
      .ok ⟨nb + (docs.length : Int) - (r.items.length : Int), w ++ r.items⟩ := by
  obtain ⟨a, ha⟩ := Option.isSome_iff_exists.mp h1
  simp only [migrate_pages, ha, h2, h3]
  simp

/-- Witness for the amended C1 at a one document page whose response lists
one failed item: the tally nets to zero and the item is warned. -/
theorem solr2es_c1_witness :
    migrate_pages ebulkOneFailed "idx" [[[("id", JValue.scalar (.str "1"))]]] 0 0 [] =
      .ok ⟨0, [⟨true, "item 1 failed"⟩]⟩ := by
  have h := solr2es_c1_partial_failure_accounting ebulkOneFailed "idx"
    [[("id", JValue.scalar (.str "1"))]] 0 0 [] ⟨true, [⟨true, "item 1 failed"⟩]⟩
    (by decide) rfl rfl
  simpa using h

/-- Counterexample for C1 as stated: a page of ten documents whose bulk
response reports all ten items with two failures nets a tally increment of
zero, not eight, because the code subtracts the length of the items list
rather than the number of failed items. -/
theorem solr2es_c1_counterexample :
    Solr2Es_migrate esTen (okSearch srcOnePageTen) "idx" 2 =
      Except.ok (some ⟨0, itemsTen⟩) ∧
    docsTen.length = 10 ∧
    (itemsTen.filter (fun it => it.failed)).length = 2 ∧
    (0 : Int) ≠ 8 :=
  ⟨rfl, rfl, rfl, by decide⟩

/-- Claim C3 (amended): create_es_actions emits, in input order, exactly
two newline separated JSON lines per document, a directive carrying the
target index, the doc type and the raw id field, followed by a body equal
to the document with every sequence valued field replaced by its first
element; the body keeps the id field, so the example document with id 7
yields the body with both the id and the collapsed tags field. -/
theorem solr2es_c3_two_lines_full_body (idx : String) (docs : List Doc)
    (h : ∀ d ∈ docs, (dictGet d "id").isSome ∧ (remove_arrays d).isSome) :
    create_es_actions idx docs = some ("\n".intercalate (docs.flatMap (fun d =>
      [es_directive_line idx ((dictGet d "id").getD (JValue.scalar (.str ""))),
       dumpsDoc ((remove_arrays d).getD [])]))) ∧
    create_es_actions "idx" [docSeven] =
      some ("\x7b\"index\": \x7b\"_index\": \"idx\", \"_type\": \"doc\", \"_id\": \"7\"\x7d\x7d\n\x7b\"id\": \"7\", \"tags\": \"a\"\x7d") := by
  refine ⟨?_, rfl⟩
  unfold create_es_actions
  rw [es_actions_list_flat idx docs h]
  rfl

/-- Witness for the amended C3 at the example document. -/
theorem solr2es_c3_witness :
    create_es_actions "idx" [docSeven] =
      some ("\n".intercalate ([docSeven].flatMap (fun d =>
        [es_directive_line "idx" ((dictGet d "id").getD (JValue.scalar (.str ""))),
         dumpsDoc ((remove_arrays d).getD [])]))) :=
  (solr2es_c3_two_lines_full_body "idx" [docSeven] (by decide)).1

/-- Counterexample for C3 as stated: the body line for the example
document is the full collapsed document including its id field, not the
document with the id stripped. -/
theorem solr2es_c3_counterexample :
    create_es_actions "idx" [docSeven] =
      some ("\x7b\"index\": \x7b\"_index\": \"idx\", \"_type\": \"doc\", \"_id\": \"7\"\x7d\x7d\n\x7b\"id\": \"7\", \"tags\": \"a\"\x7d") ∧
    create_es_actions "idx" [docSeven] ≠
      some ("\x7b\"index\": \x7b\"_index\": \"idx\", \"_type\": \"doc\", \"_id\": \"7\"\x7d\x7d\n\x7b\"tags\": \"a\"\x7d") :=
  ⟨rfl, by decide⟩

/-- Claim C9 (amended): the collapse is deterministic and, at the list
versus scalar boundary, transforming a document whose array fields are
one element lists gives the same remove_arrays output as the already
scalar equivalent, and the same full serialization provided the id field
itself is identical in both versions; collapsing an already scalar field
is a no-op.  When the id field is the collapsed one, the directive line
differs (see the counterexample), which is the only amendment. -/
theorem solr2es_c9_collapse_boundary (idx : String) (d1 d2 : Doc)
    (h : List.Forall₂ (fun p q => p.1 = q.1 ∧ scalarEquiv p.2 q.2 = true) d1 d2)
    (hid : dictGet d1 "id" = dictGet d2 "id") :
    remove_arrays d1 = remove_arrays d2 ∧
    create_es_actions idx [d1] = create_es_actions idx [d2] ∧
    (∀ v : JValue, isList v = false → remove_arrays_filter v = some v) := by
  have hra := remove_arrays_scalarEquiv d1 d2 h
  refine ⟨hra, ?_, ?_⟩
  · simp only [create_es_actions, es_actions_list, hid, hra]
  · intro v hv
    cases v with
    | scalar s => rfl
    | arr l => simp [isList] at hv

/-- Witness for the amended C9: a document with a one element tags array
against its scalar equivalent. -/
theorem solr2es_c9_witness :
    remove_arrays [("id", JValue.scalar (.str "7")), ("tags", JValue.arr [.str "a"])] =
      remove_arrays [("id", JValue.scalar (.str "7")), ("tags", JValue.scalar (.str "a"))] ∧
    create_es_actions "idx" [[("id", JValue.scalar (.str "7")), ("tags", JValue.arr [.str "a"])]] =
      create_es_actions "idx" [[("id", JValue.scalar (.str "7")), ("tags", JValue.scalar (.str "a"))]] ∧
    (∀ v : JValue, isList v = false → remove_arrays_filter v = some v) :=
  solr2es_c9_collapse_boundary "idx" _ _
    (List.Forall₂.cons ⟨rfl, by decide⟩ (List.Forall₂.cons ⟨rfl, by decide⟩ List.Forall₂.nil))
    rfl

/-- Counterexample for C9 as stated: when the one element array field is
the id itself, the serialized output differs between the two versions,
because the directive line uses the raw id value before collapsing. -/
theorem solr2es_c9_counterexample :
    scalarEquiv (JValue.arr [.str "7"]) (JValue.scalar (.str "7")) = true ∧
    create_es_actions "idx" [[("id", JValue.arr [.str "7"])]] ≠
      create_es_actions "idx" [[("id", JValue.scalar (.str "7"))]] :=
  ⟨by decide, by decide⟩

/-- Claim C10: a document holding a field whose value is the empty list
makes remove_arrays fail with the out of range first element access, and
create_es_actions on any page holding that document fails with it, so no
bulk action string is produced. -/
theorem solr2es_c10_empty_array_fails (row : Doc) (k idx : String) (docs : List Doc)
    (h1 : (k, JValue.arr []) ∈ row) (h2 : row ∈ docs) :
    remove_arrays row = none ∧ create_es_actions idx docs = none := by
  have hra := remove_arrays_empty_list row k h1
  refine ⟨hra, ?_⟩
  unfold create_es_actions
  rw [es_actions_list_none idx docs row h2 hra]
  rfl

/-- Witness for C10 at a document with an empty tags array. -/
theorem solr2es_c10_witness :
    remove_arrays [("tags", JValue.arr [])] = none ∧
    create_es_actions "idx" [[("tags", JValue.arr [])]] = none :=
  solr2es_c10_empty_array_fails [("tags", JValue.arr [])] "tags" "idx"
    [[("tags", JValue.arr [])]] (by decide) (by decide)

/-- Claim C4: the resume entry points are stubs.  Both resume_from_redis
and aioresume_from_redis only emit their single log line and return None:
no queue is drained, no Transformer or BulkWriter runs and no
MigrationResult count is produced, contrary to the stated resume
contract. -/
theorem solr2es_c4_resume_is_stub :
    ∀ redishost esurl name : String,
      (resume_from_redis redishost esurl name).2 = none ∧
      (resume_from_redis redishost esurl name).1 =
        ["resume from redis (host=" ++ redishost ++ ") to elasticsearch (" ++ esurl ++
          ") index " ++ name] ∧
      (aioresume_from_redis redishost esurl name).2 = none := by
  intro redishost esurl name
  exact ⟨rfl, rfl, rfl⟩

/-- Claim C5 (amended): the blocking and asyncio pipelines agree on the
sequence of pages and on the returned count whenever no bulk response
reports item errors and the index needs no creation or creation succeeds;
they are not equivalent in general, because Solr2EsAsync.migrate performs
no index provisioning and no partial failure accounting. -/
theorem solr2es_c5_agree_without_item_errors (es : EsState)
    (search : String → Except String SolrResult) (idx : String) (fuel : Nat)
    (h1 : es.indexExists = true ∨ es.createResult = .ok ())
    (h2 : ∀ i r, es.bulk i = .ok r → r.errors = false) :
    (Solr2Es_migrate es search idx fuel).map (Option.map MigrateOut.count) =
      Solr2EsAsync_migrate es.bulk search idx fuel := by
  have hprov : (if es.indexExists then Except.ok () else es.createResult) = Except.ok () := by
    cases hE : es.indexExists with
    | true => simp
    | false =>
      rcases h1 with h | h
      · rw [hE] at h; cases h
      · simp [h]
  unfold Solr2Es_migrate Solr2EsAsync_migrate
  rw [hprov, aioproduce_eq]
  cases produce_results search fuel with
  | error e => rfl
  | ok o =>
    cases o with
    | none => rfl
    | some out =>
      have hag := migrate_pages_no_errors es.bulk idx h2 out.pages 0 0 []
      show Except.map (Option.map MigrateOut.count)
          (match migrate_pages es.bulk idx out.pages 0 0 [] with
           | .error e => .error e
           | .ok m => .ok (some m)) =
        (match aiomigrate_pages es.bulk idx out.pages 0 0 with
         | .error e => .error e
         | .ok nb => .ok (some nb))
      cases hm : migrate_pages es.bulk idx out.pages 0 0 [] with
      | error e =>
        rw [hm] at hag
        rw [← hag]
        rfl
      | ok m =>
        rw [hm] at hag
        rw [← hag]
        rfl

/-- Witness for the amended C5 on the two page synthetic source with clean
bulk responses. -/
theorem solr2es_c5_witness :
    (Solr2Es_migrate esOk (okSearch srcTwoPages) "idx" 3).map (Option.map MigrateOut.count) =
      Solr2EsAsync_migrate esOk.bulk (okSearch srcTwoPages) "idx" 3 :=
  solr2es_c5_agree_without_item_errors esOk (okSearch srcTwoPages) "idx" 3 (Or.inl rfl)
    (fun i r h => by cases h; rfl)

/-- Counterexample for C5 as stated: on a one page run whose bulk response
sets the errors flag with one failed item, the blocking pipeline returns
zero while the asyncio pipeline returns one, so the two execution models
do not have identical external semantics. -/
theorem solr2es_c5_counterexample :
    (Solr2Es_migrate esErr (okSearch srcOnePage) "idx" 2).map (Option.map MigrateOut.count) =
      Except.ok (some (0 : Int)) ∧
    Solr2EsAsync_migrate esErr.bulk (okSearch srcOnePage) "idx" 2 =
      Except.ok (some (1 : Int)) ∧
    (0 : Int) ≠ 1 :=
  ⟨rfl, rfl, by decide⟩

/-- Claim C7: RedisConsumer.consume pushes one serialized entry per
document of every page under the single fixed key solr2es:queue, leaving
every other key untouched, with no acknowledgment modelled; every queued
entry is the serialization of a single document, never of a whole page,
and the asyncio consumer behaves identically. -/
theorem solr2es_c7_queue_per_document (store : String → List String)
    (pages : List (List Doc)) :
    RedisConsumer_consume store pages "solr2es:queue" =
      ((pages.map (fun r => (r.map dumpsDoc).reverse)).reverse).flatten ++
        store "solr2es:queue" ∧
    (∀ s ∈ ((pages.map (fun r => (r.map dumpsDoc).reverse)).reverse).flatten,
      ∃ p ∈ pages, ∃ d ∈ p, s = dumpsDoc d) ∧
    (∀ k, k ≠ "solr2es:queue" → RedisConsumer_consume store pages k = store k) ∧
    RedisConsumerAsync_consume store pages = RedisConsumer_consume store pages := by
  refine ⟨consume_queue_eq store pages, ?_,
    fun k hk => consume_other_key store pages k hk, rfl⟩
  intro s hs
  simp only [List.mem_flatten, List.mem_reverse, List.mem_map] at hs
  obtain ⟨l, ⟨p, hp, hgp⟩, hsl⟩ := hs
  rw [← hgp, List.mem_reverse] at hsl
  obtain ⟨d, hd, hdd⟩ := List.mem_map.mp hsl
  exact ⟨p, hp, d, hd, hdd.symm⟩

/-- Witness for C7: on a one page producer over the empty store, a key
other than solr2es:queue is untouched. -/
theorem solr2es_c7_witness :
    RedisConsumer_consume storeEmpty [[[("id", JValue.scalar (.str "1"))]]] "other" =
      storeEmpty "other" :=
  (solr2es_c7_queue_per_document storeEmpty [[[("id", JValue.scalar (.str "1"))]]]).2.2.1
    "other" (by decide)

/-- Claim C8: when Solr2Es.migrate returns a count, every step succeeded:
the index existed or its creation returned ok, the whole pagination ran
without a fetch error, and every page had a successful bulk call; hence a
page fetch failure, a provisioning failure or a bulk transport failure
leaves no partial MigrationResult, only a propagated error. -/
theorem solr2es_c8_fatal_errors_propagate (es : EsState)
    (search : String → Except String SolrResult) (idx : String) (fuel : Nat)
    (m : MigrateOut) (h : Solr2Es_migrate es search idx fuel = Except.ok (some m)) :
    (es.indexExists = true ∨ es.createResult = Except.ok ()) ∧
    (∃ pout, produce_results search fuel = Except.ok (some pout) ∧
      ∀ j, j < pout.pages.length → ∃ r, es.bulk j = Except.ok r) := by
  unfold Solr2Es_migrate at h
  cases hq : (if es.indexExists then Except.ok () else es.createResult) with
  | error e => rw [hq] at h; simp at h
  | ok u =>
    rw [hq] at h
    have hprov : es.indexExists = true ∨ es.createResult = Except.ok () := by
      cases hE : es.indexExists with
      | true => exact Or.inl rfl
      | false =>
        rw [hE] at hq
        simp only [Bool.false_eq_true, if_false] at hq
        cases u
        exact Or.inr hq
    refine ⟨hprov, ?_⟩
    cases u
    cases hp : produce_results search fuel with
    | error e => rw [hp] at h; simp at h
    | ok o =>
      rw [hp] at h
      cases o with
      | none => simp at h
      | some pout =>
        refine ⟨pout, rfl, ?_⟩
        have h2 : (match migrate_pages es.bulk idx pout.pages 0 0 [] with
            | .error e => (.error e : Except String (Option MigrateOut))
            | .ok mm => .ok (some mm)) = Except.ok (some m) := h
        cases hm : migrate_pages es.bulk idx pout.pages 0 0 [] with
        | error e => rw [hm] at h2; simp at h2
        | ok mm =>
          intro j hj
          have := migrate_pages_bulk_ok es.bulk idx pout.pages 0 0 [] mm hm j hj
          simpa using this

/-- Witness for C8 at a clean run over the two page synthetic source. -/
theorem solr2es_c8_witness :
    (esOk.indexExists = true ∨ esOk.createResult = Except.ok ()) ∧
    (∃ pout, produce_results (okSearch srcTwoPages) 3 = Except.ok (some pout) ∧
      ∀ j, j < pout.pages.length → ∃ r, esOk.bulk j = Except.ok r) :=
  solr2es_c8_fatal_errors_propagate esOk (okSearch srcTwoPages) "idx" 3 ⟨1, []⟩ rfl
